import Mathlib

/-!
Shallow embedding of the authentication/session-state core of the
aws-toolkit-vscode repository: the `ConnectionManager` / `SsoLogin` classes
of the auth2 module, and the `AuthUtil` registry built on top of them.
Stateful TypeScript methods become pure functions that take the persisted
storage state explicitly and return the new state together with the traces
of fired state-change events and of requests issued to external
collaborators (the token transport peer, the IDE host, the file system).
-/

namespace AwsAuth

/-- Connection/session states (`AuthStates` in the auth2 module). -/
inductive AuthState
  | notConnected
  | connected
  | expired
deriving DecidableEq, Repr

/-- Structured error codes of the token transport peer (`AwsErrorCodes` of the
language-server protocol package; the taxonomy follows the external-interface
description: cancelled, session-not-found, profile-not-found, invalid-token,
cannot-refresh-token). -/
inductive AwsErrorCode
  | eSsoSessionNotFound
  | eProfileNotFound
  | eInvalidSsoToken
  | eCannotRefreshSsoToken
  | eCancelled
deriving DecidableEq, Repr

/-- An error raised by the token transport peer: `err.data?.awsErrorCode` may
carry a structured code or be absent, plus an opaque message. -/
structure TransportError where
  awsErrorCode : Option AwsErrorCode
  message : String
deriving DecidableEq, Repr

/-- The `SsoConnection` interface of the auth2 module. -/
structure SsoConnection where
  id : String
  startUrl : String
  region : String
  scopes : List String
  tokenId : Option String
  state : AuthState
deriving DecidableEq, Repr

/-- Union `Connection = IamConnection | SsoConnection` of the auth2 module. -/
inductive Connection
  | sso (c : SsoConnection)
  | iam (id : String) (state : AuthState)
deriving DecidableEq, Repr

/-- Projection `Connection.state` (both variants carry a `state` field). -/
def Connection.state : Connection → AuthState
  | .sso c => c.state
  | .iam _ s => s

/-- Spread-update `{ ...oldConnection, state }` used by
`ConnectionManager.updateConnectionState`. -/
def Connection.withState : Connection → AuthState → Connection
  | .sso c, s => .sso { c with state := s }
  | .iam i _, s => .iam i s

/-- Event payload `AuthStateEvent` (connection id and new state) of the auth2 module. -/
structure AuthStateEvent where
  id : String
  state : AuthState
deriving DecidableEq, Repr

/-- The distinct `ToolkitError` / `Error` values thrown by the session core,
plus rethrown transport-peer errors. Each constructor stands for one thrower
in the source. -/
inductive OpError
  /-- Thrown as "Cannot update state, connection ... does not exist." -/
  | cannotUpdateStateNoConnection (id : String)
  /-- Thrown as "Cannot update Token ID, connection ... is not an SSO connection" -/
  | cannotUpdateTokenIdNotSso (id : String)
  /-- Thrown as "SsoLogin managing non-SSO connection" -/
  | managingNonSsoConnection
  /-- Thrown as "SsoLogin: no connection found, cannot reauthenticate." -/
  | noConnectionCannotReauth
  /-- Thrown as "SsoLogin: No connection found." -/
  | noConnectionFound
  /-- Thrown as "No valid session." by the registry -/
  | noValidSession
  /-- the original transport-peer error, rethrown -/
  | transport (e : TransportError)
deriving DecidableEq, Repr

/-- The token source descriptor passed to `getSsoToken`
(`AwsBuilderIdSsoTokenSource` / `IamIdentityCenterSsoTokenSource`). -/
inductive TokenSourceKind
  | awsBuilderId (ssoRegistrationScopes : List String)
  | iamIdentityCenter (profileName : String)
deriving DecidableEq, Repr

/-- Legacy on-disk cache files are relocated to `getCacheDir()/sha1(key).json`;
a destination is represented by its pre-hash key. -/
inductive CacheKey
  | profile (profileName : String)
  | registration (region : String) (startUrl : String) (tool : String)
deriving DecidableEq, Repr

/-- Observable requests issued to external collaborators (transport peer, IDE
host, file system) while an operation runs, in order. -/
inductive Effect
  /-- Request `updateProfile(profileName, startUrl, region, scopes)` to the peer -/
  | updateProfileReq (profileName : String) (startUrl : String) (region : String)
      (scopes : List String)
  /-- Request `getSsoToken(source, login)` to the peer -/
  | getSsoTokenReq (source : TokenSourceKind) (login : Bool)
  /-- Request `invalidateSsoToken(tokenId)` to the peer -/
  | invalidateSsoTokenReq (tokenId : String)
  /-- Push `updateBearerToken(params)` to the peer; `none` models an undefined payload -/
  | updateBearerTokenReq (params : Option String)
  /-- Push `deleteBearerToken()` to the peer -/
  | deleteBearerToken
  /-- a `storage.update(id, value)` write of the persisted connection store -/
  | storageWrite (id : String) (value : Option Connection)
  /-- Republish `setContext(key, value)` of a feature-visibility flag -/
  | setContext (key : String) (value : Bool)
  /-- Call `Commands.tryExecute(cmd)` -/
  | tryExecuteCommand (cmd : String)
  /-- Call `vscode.commands.executeCommand(cmd)` -/
  | executeCommand (cmd : String)
  /-- File move `fs.rename(src, hashedPath)` during legacy migration -/
  | renameFile (src : String) (dst : CacheKey)
  /-- Write clearing the legacy store entry -/
  | clearLegacyStore
deriving DecidableEq, Repr

/-- The persisted connection store (a `vscode.Memento` partition keyed by
connection id). -/
abbrev Storage := List (String × Connection)

/-- Lookup `storage.get(id)`. -/
def Storage.get (s : Storage) (id : String) : Option Connection :=
  (s.find? (fun p => p.1 == id)).map (fun p => p.2)

/-- Write `storage.update(id, value)`: `none` removes the entry, `some c` replaces
or inserts it. -/
def Storage.update (s : Storage) (id : String) (v : Option Connection) : Storage :=
  match v with
  | none => s.filter (fun p => p.1 != id)
  | some c => s.filter (fun p => p.1 != id) ++ [(id, c)]

/-- State of the `ConnectionManager`: the persisted store plus the set of
connection ids for which a state-change event emitter has been registered
(`ConnectionManager.eventEmitters`, created on first
`onDidChangeConnectionState` subscription). -/
structure MgrState where
  storage : Storage
  emitters : List String
deriving DecidableEq, Repr

/-- Result of a session/manager operation: the outcome (or thrown error), the
post-state of the persisted store, the state-change events fired, and the
external requests issued. -/
structure OpOut (α : Type) where
  result : Except OpError α
  state : MgrState
  events : List AuthStateEvent
  effects : List Effect

/-- Method `ConnectionManager.updateConnectionState(id, state)`: throws if the
connection does not exist; fires an event (on the connection's emitter, if one
is registered) and persists the new state only when it differs from the stored
state. -/
def updateConnectionState (st : MgrState) (id : String) (state : AuthState) : OpOut Unit :=
  match Storage.get st.storage id with
  | none => ⟨.error (.cannotUpdateStateNoConnection id), st, [], []⟩
  | some oldConnection =>
    if state = oldConnection.state then
      ⟨.ok (), st, [], []⟩
    else
      ⟨.ok (),
        { st with storage := st.storage.update id (some (oldConnection.withState state)) },
        if id ∈ st.emitters then [⟨id, state⟩] else [],
        [.storageWrite id (some (oldConnection.withState state))]⟩

/-- Method `ConnectionManager.addConnection(conn)`. -/
def addConnection (st : MgrState) (id : String) (conn : Connection) : MgrState × List Effect :=
  ({ st with storage := st.storage.update id (some conn) }, [.storageWrite id (some conn)])

/-- Method `ConnectionManager.deleteConnection(id)`: first
`updateConnectionState(id, 'notConnected')` (to fire listeners; its error, if
any, propagates), then removes the entry from storage. -/
def deleteConnection (st : MgrState) (id : String) : OpOut Unit :=
  let r := updateConnectionState st id .notConnected
  match r.result with
  | .error _ => r
  | .ok _ =>
    { r with
      state := { r.state with storage := r.state.storage.update id none },
      effects := r.effects ++ [.storageWrite id none] }

/-- Method `ConnectionManager.updateSsoTokenId(id, tokenId)`: throws unless the stored
connection is SSO; writes only when the token id changed. -/
def updateSsoTokenId (st : MgrState) (id : String) (tokenId : String) : OpOut Unit :=
  match Storage.get st.storage id with
  | some (.sso c) =>
    if c.tokenId = some tokenId then
      ⟨.ok (), st, [], []⟩
    else
      ⟨.ok (),
        { st with storage := st.storage.update id (some (.sso { c with tokenId := some tokenId })) },
        [],
        [.storageWrite id (some (.sso { c with tokenId := some tokenId }))]⟩
  | _ => ⟨.error (.cannotUpdateTokenIdNotSso id), st, [], []⟩

/-- Modelled from the spec: the reserved public-identity ("Builder ID") start
URL, imported by the auth2 module from a constants module that is not among
the sources here; the spec calls it "the reserved public-identity SSO start
URL requiring no profile registration". -/
def builderIdStartUrl : String := "https://view.awsapps.com/start"

/-- JavaScript truthiness of a string (the empty string is falsy). -/
def jsTruthy (s : String) : Bool := s != ""

/-- Outcome of the transport peer's `getSsoToken` request: a
`GetSsoTokenResult` carrying `ssoToken.id`, the encrypted
`ssoToken.accessToken`, and the opaque `updateCredentialsParams`, or a
structured error. The outcome is an input of the model, since the peer is an
external collaborator. -/
structure FetchSuccess where
  tokenId : String
  accessToken : String
  updateCredentialsParams : String
deriving DecidableEq, Repr

abbrev FetchOutcome := Except TransportError FetchSuccess

/-- Method `SsoLogin.getConnection()`: may throw if the stored connection is not SSO. -/
def ssoLoginGetConnection (st : MgrState) (profileName : String) :
    Except OpError (Option SsoConnection) :=
  match Storage.get st.storage profileName with
  | none => .ok none
  | some (.sso c) => .ok (some c)
  | some (.iam _ _) => .error .managingNonSsoConnection

/-- Token source selection of `SsoLogin._getSsoToken`: Builder ID start URL
yields an `AwsBuilderId` source with the connection's scopes, anything else an
`IamIdentityCenter` source named by the profile. -/
def tokenSourceFor (profileName : String) (c : SsoConnection) : TokenSourceKind :=
  if c.startUrl = builderIdStartUrl then .awsBuilderId c.scopes
  else .iamIdentityCenter profileName

/-- Method `SsoLogin._getSsoToken(login)`: requires a stored connection; on fetch
success records the token handle and sets state `connected`; on fetch failure
maps the structured error code (session/profile not found → connection
deleted; invalid token → `expired`, but only from `connected`; anything else →
state unchanged) and rethrows the original error. -/
def ssoLoginGetSsoToken (profileName : String) (login : Bool) (fetch : FetchOutcome)
    (st : MgrState) : OpOut FetchSuccess :=
  match ssoLoginGetConnection st profileName with
  | .error e => ⟨.error e, st, [], []⟩
  | .ok none => ⟨.error .noConnectionFound, st, [], []⟩
  | .ok (some existingConn) =>
    let req : Effect := .getSsoTokenReq (tokenSourceFor profileName existingConn) login
    match fetch with
    | .error err =>
      match err.awsErrorCode with
      | some .eSsoSessionNotFound
      | some .eProfileNotFound =>
        let d := deleteConnection st profileName
        match d.result with
        | .error e => ⟨.error e, d.state, d.events, req :: d.effects⟩
        | .ok _ => ⟨.error (.transport err), d.state, d.events, req :: d.effects⟩
      | some .eInvalidSsoToken =>
        if existingConn.state = .connected then
          let u := updateConnectionState st profileName .expired
          match u.result with
          | .error e => ⟨.error e, u.state, u.events, req :: u.effects⟩
          | .ok _ => ⟨.error (.transport err), u.state, u.events, req :: u.effects⟩
        else
          ⟨.error (.transport err), st, [], [req]⟩
      | _ => ⟨.error (.transport err), st, [], [req]⟩
    | .ok response =>
      let u1 := updateSsoTokenId st profileName response.tokenId
      match u1.result with
      | .error e => ⟨.error e, u1.state, u1.events, req :: u1.effects⟩
      | .ok _ =>
        let u2 := updateConnectionState u1.state profileName .connected
        match u2.result with
        | .error e => ⟨.error e, u2.state, u1.events ++ u2.events, req :: (u1.effects ++ u2.effects)⟩
        | .ok _ =>
          ⟨.ok response, u2.state, u1.events ++ u2.events, req :: (u1.effects ++ u2.effects)⟩

/-- Method `SsoLogin.login(startUrl, region, scopes)`: registers/updates the remote
profile (skipped for the Builder ID start URL), stores a fresh `notConnected`
connection, then performs the interactive token request. -/
def ssoLoginLogin (profileName : String) (startUrl : String) (region : String)
    (scopes : List String) (fetch : FetchOutcome) (st : MgrState) : OpOut FetchSuccess :=
  let profEffects : List Effect :=
    if startUrl = builderIdStartUrl then []
    else [.updateProfileReq profileName startUrl region scopes]
  let conn : Connection := .sso ⟨profileName, startUrl, region, scopes, none, .notConnected⟩
  let (st1, addEffects) := addConnection st profileName conn
  let r := ssoLoginGetSsoToken profileName true fetch st1
  { r with effects := profEffects ++ addEffects ++ r.effects }

/-- Method `SsoLogin.relogin()`: fails immediately when no connection was ever
stored, otherwise repeats the interactive token request. -/
def ssoLoginRelogin (profileName : String) (fetch : FetchOutcome) (st : MgrState) :
    OpOut FetchSuccess :=
  match Storage.get st.storage profileName with
  | none => ⟨.error .noConnectionCannotReauth, st, [], []⟩
  | some _ => ssoLoginGetSsoToken profileName true fetch st

/-- Method `SsoLogin.logout(invalidate)`: when the stored connection holds a (truthy)
token handle, awaits `invalidateSsoToken` — its failure propagates and nothing
further runs — and then deletes the connection. `invalidate` is the peer's
response to the invalidation request. -/
def ssoLoginLogout (profileName : String) (invalidate : Except TransportError Unit)
    (st : MgrState) : OpOut Unit :=
  match ssoLoginGetConnection st profileName with
  | .error e => ⟨.error e, st, [], []⟩
  | .ok (some c) =>
    match c.tokenId with
    | some tid =>
      if jsTruthy tid then
        match invalidate with
        | .error err => ⟨.error (.transport err), st, [], [.invalidateSsoTokenReq tid]⟩
        | .ok _ =>
          let d := deleteConnection st profileName
          { d with effects := .invalidateSsoTokenReq tid :: d.effects }
      else deleteConnection st profileName
    | none => deleteConnection st profileName
  | .ok none => deleteConnection st profileName

/-- Quote stripping (removal of every double-quote character) applied to the
decrypted plaintext. -/
def removeQuotes (s : String) : String :=
  (s.toList.filter (fun ch => ch ≠ '\"')).asString

/-- Method `SsoLogin.getToken()`: `_getSsoToken(false)`, then decryption of the
access-token payload with the channel's encryption key (`decrypt` is that
opaque capability) and quote stripping; returns the plaintext token together
with the `updateCredentialsParams` of the response. -/
def ssoLoginGetToken (profileName : String) (fetch : FetchOutcome)
    (decrypt : String → String) (st : MgrState) : OpOut (String × String) :=
  let r := ssoLoginGetSsoToken profileName false fetch st
  match r.result with
  | .error e => ⟨.error e, r.state, r.events, r.effects⟩
  | .ok resp =>
    ⟨.ok (removeQuotes (decrypt resp.accessToken), resp.updateCredentialsParams),
      r.state, r.events, r.effects⟩

/-! ### AuthUtil (session registry) over ConnectionManager-backed sessions -/

/-- The `type` tag of `AuthUtil.session` (`Login = IamLogin | SsoLogin`);
`none` models an `AuthUtil` whose `session` field is `undefined`. -/
inductive SessionType
  | sso
  | iam
deriving DecidableEq, Repr

/-- Method `AuthUtil.getAuthState()`: the stored connection's state, or
`notConnected` when none is stored. -/
def getAuthState (st : MgrState) (profileName : String) : AuthState :=
  match Storage.get st.storage profileName with
  | some c => c.state
  | none => .notConnected

/-- Method `AuthUtil.getToken()`: delegates to the SSO session's `getToken` when the
session is SSO, otherwise throws "No valid session.". -/
def authUtilGetToken (session : Option SessionType) (profileName : String)
    (fetch : FetchOutcome) (decrypt : String → String) (st : MgrState) : OpOut String :=
  if session = some .sso then
    let r := ssoLoginGetToken profileName fetch decrypt st
    match r.result with
    | .error e => ⟨.error e, r.state, r.events, r.effects⟩
    | .ok tok => ⟨.ok tok.1, r.state, r.events, r.effects⟩
  else ⟨.error .noValidSession, st, [], []⟩

/-- Predicate `AuthUtil.isBuilderIdConnection()`:
`conn?.type === 'sso' && conn.startUrl === builderIdStartUrl`. -/
def isBuilderIdConnection (st : MgrState) (profileName : String) : Bool :=
  match Storage.get st.storage profileName with
  | some (.sso c) => c.startUrl == builderIdStartUrl
  | _ => false

/-- Predicate `AuthUtil.isIdcConnection()`:
`conn?.type === 'sso' && conn?.startUrl !== builderIdStartUrl`. -/
def isIdcConnection (st : MgrState) (profileName : String) : Bool :=
  match Storage.get st.storage profileName with
  | some (.sso c) => c.startUrl != builderIdStartUrl
  | _ => false

/-- Read of `this.connection?.tokenId` as done by `ssoTokenChangedHandler` (the
stored connection is cast to `SsoConnection`; a non-SSO or missing connection
yields `undefined`). -/
def connectionTokenId (st : MgrState) (profileName : String) : Option String :=
  match Storage.get st.storage profileName with
  | some (.sso c) => c.tokenId
  | _ => none

/-- Kinds of the `ssoTokenChanged` push notification. -/
inductive TokenChangedKind
  | expired
  | refreshed
deriving DecidableEq, Repr

/-- Parameters `SsoTokenChangedParams` of the push notification. -/
structure SsoTokenChangedParams where
  ssoTokenId : String
  kind : TokenChangedKind
deriving DecidableEq, Repr

/-- Handler `AuthUtil.ssoTokenChangedHandler(params)`: ignores notifications whose
token handle differs from the session's recorded handle; `Expired` is logged
only ("not implemented on LSP yet"); `Refreshed` fetches a fresh token and
pushes `updateBearerToken` (an undefined payload when the session is not
SSO). -/
def ssoTokenChangedHandler (params : SsoTokenChangedParams) (session : Option SessionType)
    (profileName : String) (fetch : FetchOutcome) (decrypt : String → String)
    (st : MgrState) : OpOut Unit :=
  if some params.ssoTokenId ≠ connectionTokenId st profileName then
    ⟨.ok (), st, [], []⟩
  else
    match params.kind with
    | .expired => ⟨.ok (), st, [], []⟩
    | .refreshed =>
      if session = some .sso then
        let r := ssoLoginGetToken profileName fetch decrypt st
        match r.result with
        | .error e => ⟨.error e, r.state, r.events, r.effects⟩
        | .ok tok =>
          ⟨.ok (), r.state, r.events, r.effects ++ [.updateBearerTokenReq (some tok.2)]⟩
      else ⟨.ok (), st, [], [.updateBearerTokenReq none]⟩

/-! ### State-change fan-out of the later AuthUtil revision -/

/-- The event payload seen by the later revision's `stateChangeHandler`:
a terminal `AuthState` or the transient `'refreshed'` variant. -/
inductive EventState
  | auth (s : AuthState)
  | refreshed
deriving DecidableEq, Repr

/-- Method `AuthUtil.setVscodeContextProps(state)`: the three feature-visibility
context flags, republished in source order. -/
def setVscodeContextProps (state : AuthState) : List Effect :=
  [.setContext "aws.codewhisperer.connected" (state == .connected),
   .setContext "aws.amazonq.showLoginView" (state != .connected),
   .setContext "aws.codewhisperer.connectionExpired" (state == .expired)]

/-- Method `AuthUtil.refreshState(state)`: on `expired` first deletes the pushed
bearer token from the peer, then republishes the feature-visibility flags and
refreshes dependent modules; on `connected` with an IdC connection it also
triggers the customizations notification. -/
def refreshState (state : AuthState) (isIdc : Bool) : List Effect :=
  (if state = .expired then [Effect.deleteBearerToken] else [])
    ++ setVscodeContextProps state
    ++ [.tryExecuteCommand "aws.amazonq.refreshStatusBar",
        .tryExecuteCommand "aws.amazonq.updateReferenceLog"]
    ++ (if state = .connected ∧ isIdc = true then
          [.executeCommand "aws.amazonq.notifyNewCustomizations"]
        else [])

/-- Handler `AuthUtil.stateChangeHandler(e)` of the later revision: `'refreshed'`
re-fetches the token (`tokenFetchEffects`, `tokenParams` stand for that
session call's observable requests and resulting credentials payload) and
pushes `updateBearerToken`, changing no state; a terminal state runs
`refreshState`. -/
def stateChangeHandler (e : EventState) (isIdc : Bool)
    (tokenFetchEffects : List Effect) (tokenParams : Option String) : List Effect :=
  match e with
  | .refreshed => tokenFetchEffects ++ [.updateBearerTokenReq tokenParams]
  | .auth s => refreshState s isIdc

/-! ### Legacy-profile import (migration) -/

/-- Scope set `amazonQScopes` required by the feature surface (composed
in the registry from scope constants; concrete values as listed in the auth2
module's scope list). -/
def amazonQScopes : List String :=
  ["codewhisperer:completions", "codewhisperer:analysis", "codewhisperer:conversations",
   "codewhisperer:taskassist", "codewhisperer:transformations"]

/-- Modelled from the spec: `hasExactScopes` of the auth/connection module
(not among the sources here) — the profile's scope set exactly matches the
required feature scopes. -/
def hasExactScopes (a b : List String) : Bool :=
  a.all (fun s => b.contains s) && b.all (fun s => a.contains s)

/-- A profile of the legacy multi-connection store (`StoredProfile`): the
fields read by the import loop. -/
structure StoredProfile where
  type : SessionType
  startUrl : String
  ssoRegion : String
  scopes : Option (List String)
  connectionState : String
deriving DecidableEq, Repr

/-- The import loop of `migrateExistingConnection`: scans the legacy profiles
in order, remembering the latest SSO profile with exactly the required
scopes and stopping early at one whose recorded state is `'valid'`. -/
def findImport (acc : Option StoredProfile) : List StoredProfile → Option StoredProfile
  | [] => acc
  | p :: rest =>
    if p.type == .sso && hasExactScopes (p.scopes.getD []) amazonQScopes then
      if p.connectionState == "valid" then some p
      else findImport (some p) rest
    else findImport acc rest

/-- Method `AuthUtil.migrateExistingConnection(clientName)`: reads the legacy
`'auth.profiles'` store entry; when a matching profile is found, re-registers
it via the session's profile update, relocates the on-disk registration and
token cache files to content-addressed paths, and clears the legacy entry.
`registrationFile` and `tokenFile` name the legacy source files (unresolved
identifiers in this revision of the source). Returns the new value of the
legacy store entry and the requests issued. -/
def migrateExistingConnection (profiles : Option (List StoredProfile))
    (profileName : String) (clientName : String)
    (registrationFile : String) (tokenFile : String) :
    Option (List StoredProfile) × List Effect :=
  match profiles with
  | none => (none, [])
  | some ps =>
    match findImport none ps with
    | none => (some ps, [])
    | some p =>
      (none,
        [.updateProfileReq profileName p.startUrl p.ssoRegion amazonQScopes,
         .renameFile registrationFile (.registration p.ssoRegion p.startUrl clientName),
         .renameFile tokenFile (.profile profileName),
         .clearLegacyStore])

/-! ### Storage lemmas -/

theorem Storage.find?_filter_ne (s : Storage) (id : String) :
    (s.filter (fun p => p.1 != id)).find? (fun p => p.1 == id) = none := by
  rw [List.find?_eq_none]
  intro x hx
  rcases List.mem_filter.mp hx with ⟨-, hpx⟩
  simpa using hpx

theorem Storage.get_update_some (s : Storage) (id : String) (c : Connection) :
    Storage.get (Storage.update s id (some c)) id = some c := by
  simp [Storage.get, Storage.update, List.find?_append, Storage.find?_filter_ne]

theorem Storage.get_update_none (s : Storage) (id : String) :
    Storage.get (Storage.update s id none) id = none := by
  simp [Storage.get, Storage.update, Storage.find?_filter_ne]

/-! ### Example fixtures -/

/-- An example SSO connection for the feature profile name. -/
def exSso (startUrl : String) (tokenId : Option String) (s : AuthState) : SsoConnection :=
  ⟨"amazonq", startUrl, "us-east-1", ["scope:a"], tokenId, s⟩

/-- An enterprise (IdC) start URL distinct from the Builder ID URL. -/
def exIdcUrl : String := "https://example.awsapps.com/start"

/-- A store holding a `connected` IdC connection with token handle "tok-1",
with a state-change emitter registered for the profile. -/
def stConnected : MgrState :=
  ⟨[("amazonq", .sso (exSso exIdcUrl (some "tok-1") .connected))], ["amazonq"]⟩

/-! ### Claim theorems -/

/-- C10: `ConnectionManager.updateConnectionState` raises an error when no
connection is stored under the id; when the passed state differs from the
stored one it fires exactly one state-change event (on the connection's
registered emitter) and performs exactly one storage write persisting the new
state; when the passed state equals the stored one it fires no event and
performs no storage write. -/
theorem c10_updateConnectionState_contract (st : MgrState) (id : String) (s : AuthState) :
    (Storage.get st.storage id = none →
      (updateConnectionState st id s).result = .error (.cannotUpdateStateNoConnection id) ∧
      (updateConnectionState st id s).state = st ∧
      (updateConnectionState st id s).events = [] ∧
      (updateConnectionState st id s).effects = []) ∧
    (∀ old, Storage.get st.storage id = some old →
      (s ≠ old.state →
        (updateConnectionState st id s).result = .ok () ∧
        (updateConnectionState st id s).events =
          (if id ∈ st.emitters then [⟨id, s⟩] else []) ∧
        (updateConnectionState st id s).effects =
          [.storageWrite id (some (old.withState s))] ∧
        Storage.get (updateConnectionState st id s).state.storage id =
          some (old.withState s)) ∧
      (s = old.state →
        (updateConnectionState st id s).result = .ok () ∧
        (updateConnectionState st id s).state = st ∧
        (updateConnectionState st id s).events = [] ∧
        (updateConnectionState st id s).effects = [])) := by
  constructor
  · intro h
    simp [updateConnectionState, h]
  · intro old h
    constructor
    · intro hne
      simp [updateConnectionState, h, hne, Storage.get_update_some]
    · intro heq
      simp [updateConnectionState, h, heq]

/-- Witness for C10: on the example connected store, updating to `expired`
succeeds, fires the one event, writes once; updating to `connected` (the
stored state) is a no-op; and a missing id errors. -/
theorem c10_updateConnectionState_contract_witness :
    (updateConnectionState stConnected "amazonq" .expired).result = .ok () ∧
    (updateConnectionState stConnected "amazonq" .expired).events =
      [⟨"amazonq", .expired⟩] ∧
    (updateConnectionState stConnected "amazonq" .connected).events = [] ∧
    (updateConnectionState stConnected "other" .expired).result =
      .error (.cannotUpdateStateNoConnection "other") := by
  have h1 := (c10_updateConnectionState_contract stConnected "amazonq" .expired).2
    (.sso (exSso exIdcUrl (some "tok-1") .connected)) (by decide)
  have h2 := (c10_updateConnectionState_contract stConnected "amazonq" .connected).2
    (.sso (exSso exIdcUrl (some "tok-1") .connected)) (by decide)
  have h3 := (c10_updateConnectionState_contract stConnected "other" .expired).1 (by decide)
  refine ⟨(h1.1 (by decide)).1, ?_, (h2.2 (by decide)).2.2.1, h3.1⟩
  have := (h1.1 (by decide)).2.1
  simpa [stConnected] using this

/-- Counterexample to C1: on a `connected` session, a token fetch failing
with the invalid-token code sets the state to `expired` and keeps the stored
connection — it does not set `notConnected` and does not delete the
connection, contrary to the claim's mapping for `token-invalid`. -/
theorem c1_invalid_token_counterexample :
    getAuthState (ssoLoginGetSsoToken "amazonq" false
      (.error ⟨some .eInvalidSsoToken, "invalid"⟩) stConnected).state "amazonq" = .expired ∧
    Storage.get (ssoLoginGetSsoToken "amazonq" false
      (.error ⟨some .eInvalidSsoToken, "invalid"⟩) stConnected).state.storage "amazonq" =
      some (.sso (exSso exIdcUrl (some "tok-1") .expired)) := by
  decide

/-- C1 (amended): for a token fetch over a stored SSO connection that fails
with a structured error, the original error is rethrown in every case;
session-not-found and profile-not-found delete the connection (state
`notConnected`); invalid-token moves a `connected` session to `expired` and
leaves any other state unchanged; any other code leaves the state unchanged. -/
theorem c1_error_mapping (st : MgrState) (profileName : String) (login : Bool)
    (err : TransportError) (c : SsoConnection)
    (hc : Storage.get st.storage profileName = some (.sso c)) :
    (ssoLoginGetSsoToken profileName login (.error err) st).result =
      .error (.transport err) ∧
    ((err.awsErrorCode = some .eSsoSessionNotFound ∨
        err.awsErrorCode = some .eProfileNotFound) →
      Storage.get (ssoLoginGetSsoToken profileName login (.error err) st).state.storage
          profileName = none ∧
      getAuthState (ssoLoginGetSsoToken profileName login (.error err) st).state
          profileName = .notConnected) ∧
    (err.awsErrorCode = some .eInvalidSsoToken →
      (c.state = .connected →
        Storage.get (ssoLoginGetSsoToken profileName login (.error err) st).state.storage
            profileName = some (.sso { c with state := .expired })) ∧
      (c.state ≠ .connected →
        (ssoLoginGetSsoToken profileName login (.error err) st).state = st)) ∧
    (err.awsErrorCode ≠ some .eSsoSessionNotFound →
      err.awsErrorCode ≠ some .eProfileNotFound →
      err.awsErrorCode ≠ some .eInvalidSsoToken →
      (ssoLoginGetSsoToken profileName login (.error err) st).state = st) := by
  have hstate : (Connection.sso c).state = c.state := rfl
  rcases herr : err.awsErrorCode with _ | code
  · refine ⟨?_, by simp [herr], by simp [herr], ?_⟩
    · simp [ssoLoginGetSsoToken, ssoLoginGetConnection, hc, herr]
    · intro _ _ _
      simp [ssoLoginGetSsoToken, ssoLoginGetConnection, hc, herr]
  · cases code
    · -- session not found: connection deleted
      by_cases hn : AuthState.notConnected = c.state <;>
        simp [ssoLoginGetSsoToken, ssoLoginGetConnection, hc, herr, deleteConnection,
          updateConnectionState, hstate, hn, getAuthState, Storage.get_update_none,
          Storage.get_update_some, Connection.withState]
    · -- profile not found: connection deleted
      by_cases hn : AuthState.notConnected = c.state <;>
        simp [ssoLoginGetSsoToken, ssoLoginGetConnection, hc, herr, deleteConnection,
          updateConnectionState, hstate, hn, getAuthState, Storage.get_update_none,
          Storage.get_update_some, Connection.withState]
    · -- invalid token: expired iff previously connected
      by_cases hcs : c.state = .connected <;>
        simp [ssoLoginGetSsoToken, ssoLoginGetConnection, hc, herr,
          updateConnectionState, hstate, hcs, Storage.get_update_some, Connection.withState]
    · -- cannot-refresh: not specially recognized, state unchanged
      simp [ssoLoginGetSsoToken, ssoLoginGetConnection, hc, herr]
    · -- cancelled: not specially recognized, state unchanged
      simp [ssoLoginGetSsoToken, ssoLoginGetConnection, hc, herr]

/-- Witness for C1 (amended): concrete runs on the example connected store
for a session-not-found error (connection deleted) and an unrecognized error
(state unchanged). -/
theorem c1_error_mapping_witness :
    (ssoLoginGetSsoToken "amazonq" false
      (.error ⟨some .eSsoSessionNotFound, "gone"⟩) stConnected).result =
      .error (.transport ⟨some .eSsoSessionNotFound, "gone"⟩) ∧
    Storage.get (ssoLoginGetSsoToken "amazonq" false
      (.error ⟨some .eSsoSessionNotFound, "gone"⟩) stConnected).state.storage "amazonq" =
      none ∧
    (ssoLoginGetSsoToken "amazonq" false
      (.error ⟨none, "network"⟩) stConnected).state = stConnected := by
  have h1 := c1_error_mapping stConnected "amazonq" false
    ⟨some .eSsoSessionNotFound, "gone"⟩ (exSso exIdcUrl (some "tok-1") .connected) (by decide)
  have h2 := c1_error_mapping stConnected "amazonq" false
    ⟨none, "network"⟩ (exSso exIdcUrl (some "tok-1") .connected) (by decide)
  exact ⟨h1.1, (h1.2.1 (Or.inl rfl)).1,
    h2.2.2.2 (by decide) (by decide) (by decide)⟩

/-- Helper: `deleteConnection` on an existing connection succeeds and removes
the stored entry. -/
theorem deleteConnection_resets (st : MgrState) (id : String) (c : Connection)
    (hc : Storage.get st.storage id = some c) :
    (deleteConnection st id).result = .ok () ∧
    Storage.get (deleteConnection st id).state.storage id = none := by
  unfold deleteConnection updateConnectionState
  rw [hc]
  by_cases hn : AuthState.notConnected = c.state
  · simp [hn, Storage.get_update_none]
  · simp [hn, Storage.get_update_none]

/-- Helper: `SsoLogin.login` with a successful token fetch always succeeds,
and leaves a `connected` connection carrying the requested attributes and the
returned token handle. -/
theorem login_ok_connects (profileName startUrl region : String) (scopes : List String)
    (resp : FetchSuccess) (st : MgrState) :
    (ssoLoginLogin profileName startUrl region scopes (.ok resp) st).result = .ok resp ∧
    Storage.get (ssoLoginLogin profileName startUrl region scopes (.ok resp) st).state.storage
        profileName =
      some (.sso ⟨profileName, startUrl, region, scopes, some resp.tokenId, .connected⟩) := by
  unfold ssoLoginLogin addConnection ssoLoginGetSsoToken ssoLoginGetConnection
    updateSsoTokenId updateConnectionState
  simp [Storage.get_update_some, Connection.state, Connection.withState]

/-- Helper: `SsoLogin.logout` with a successful (or skipped) invalidation on
an existing SSO connection succeeds and removes the stored entry. -/
theorem logout_ok_resets (st : MgrState) (profileName : String) (c : SsoConnection)
    (hc : Storage.get st.storage profileName = some (.sso c)) :
    (ssoLoginLogout profileName (.ok ()) st).result = .ok () ∧
    Storage.get (ssoLoginLogout profileName (.ok ()) st).state.storage profileName = none := by
  have hdel := deleteConnection_resets st profileName (.sso c) hc
  rcases htok : c.tokenId with _ | tid
  · simpa [ssoLoginLogout, ssoLoginGetConnection, hc, htok] using hdel
  · by_cases ht : jsTruthy tid = true
    · simpa [ssoLoginLogout, ssoLoginGetConnection, hc, htok, ht] using hdel
    · simpa [ssoLoginLogout, ssoLoginGetConnection, hc, htok, ht] using hdel

/-- Counterexample to C2: on a `connected` session, a token fetch failing
with the cannot-refresh code leaves the state `connected` (the catch block
has no case for that code), contrary to the claimed transition to `expired`. -/
theorem c2_cannot_refresh_counterexample :
    (ssoLoginGetSsoToken "amazonq" false
      (.error ⟨some .eCannotRefreshSsoToken, "stale"⟩) stConnected).state = stConnected ∧
    getAuthState (ssoLoginGetSsoToken "amazonq" false
      (.error ⟨some .eCannotRefreshSsoToken, "stale"⟩) stConnected).state "amazonq" =
      .connected := by
  decide

/-- C2 (amended): the connected-to-expired transition is performed for the
invalid-token code, not cannot-refresh: a fetch failing with invalid-token
while `connected` stores state `expired`; failing the same way while already
`expired` leaves the state `expired` (unchanged); a fetch failing with the
cannot-refresh code leaves the state unchanged. -/
theorem c2_expiry_transition (st : MgrState) (profileName : String) (login : Bool)
    (msg : String) (c : SsoConnection)
    (hc : Storage.get st.storage profileName = some (.sso c)) :
    (c.state = .connected →
      Storage.get (ssoLoginGetSsoToken profileName login
          (.error ⟨some .eInvalidSsoToken, msg⟩) st).state.storage profileName =
        some (.sso { c with state := .expired })) ∧
    (c.state = .expired →
      (ssoLoginGetSsoToken profileName login
        (.error ⟨some .eInvalidSsoToken, msg⟩) st).state = st ∧
      getAuthState (ssoLoginGetSsoToken profileName login
          (.error ⟨some .eInvalidSsoToken, msg⟩) st).state profileName = .expired) ∧
    (ssoLoginGetSsoToken profileName login
      (.error ⟨some .eCannotRefreshSsoToken, msg⟩) st).state = st := by
  refine ⟨?_, ?_, ?_⟩
  · intro hcs
    simp [ssoLoginGetSsoToken, ssoLoginGetConnection, hc, updateConnectionState,
      Connection.state, hcs, Storage.get_update_some, Connection.withState]
  · intro hcs
    constructor
    · simp [ssoLoginGetSsoToken, ssoLoginGetConnection, hc, Connection.state, hcs]
    · simp [ssoLoginGetSsoToken, ssoLoginGetConnection, hc, Connection.state, hcs,
        getAuthState]
  · simp [ssoLoginGetSsoToken, ssoLoginGetConnection, hc]

/-- Witness for C2 (amended): concrete runs on the example connected and
expired stores. -/
theorem c2_expiry_transition_witness :
    Storage.get (ssoLoginGetSsoToken "amazonq" false
        (.error ⟨some .eInvalidSsoToken, "bad"⟩) stConnected).state.storage "amazonq" =
      some (.sso (exSso exIdcUrl (some "tok-1") .expired)) ∧
    getAuthState (ssoLoginGetSsoToken "amazonq" false
        (.error ⟨some .eInvalidSsoToken, "bad"⟩)
        ⟨[("amazonq", .sso (exSso exIdcUrl (some "tok-1") .expired))], ["amazonq"]⟩).state
      "amazonq" = .expired := by
  have h1 := c2_expiry_transition stConnected "amazonq" false "bad"
    (exSso exIdcUrl (some "tok-1") .connected) (by decide)
  have h2 := c2_expiry_transition
    ⟨[("amazonq", .sso (exSso exIdcUrl (some "tok-1") .expired))], ["amazonq"]⟩
    "amazonq" false "bad" (exSso exIdcUrl (some "tok-1") .expired) (by decide)
  exact ⟨h1.1 (by decide), (h2.2.1 (by decide)).2⟩

/-- Counterexample to C3: `logout()` on a session holding token handle
"tok-1", when the peer's invalidation request fails, rethrows the failure and
leaves the stored connection and its attributes fully intact (state still
`connected`) — the invalidation failure does block the local state reset. -/
theorem c3_logout_counterexample :
    (ssoLoginLogout "amazonq" (.error ⟨none, "offline"⟩) stConnected).result =
      .error (.transport ⟨none, "offline"⟩) ∧
    (ssoLoginLogout "amazonq" (.error ⟨none, "offline"⟩) stConnected).state = stConnected ∧
    getAuthState (ssoLoginLogout "amazonq" (.error ⟨none, "offline"⟩) stConnected).state
      "amazonq" = .connected := by
  exact ⟨rfl, by decide, by decide⟩

/-- C3 (amended): `logout()` on a session holding a (truthy) token handle
first asks the peer to invalidate that handle; when the invalidation succeeds
the connection is deleted and the state becomes `notConnected`, but when the
invalidation request fails the error propagates and the local state is not
reset. -/
theorem c3_logout_behavior (st : MgrState) (profileName : String) (c : SsoConnection)
    (inv : Except TransportError Unit) (tid : String)
    (hc : Storage.get st.storage profileName = some (.sso c))
    (htid : c.tokenId = some tid) (hne : tid ≠ "") :
    (ssoLoginLogout profileName inv st).effects.head? =
      some (.invalidateSsoTokenReq tid) ∧
    (∀ e, inv = .error e →
      (ssoLoginLogout profileName inv st).result = .error (.transport e) ∧
      (ssoLoginLogout profileName inv st).state = st) ∧
    (inv = .ok () →
      Storage.get (ssoLoginLogout profileName inv st).state.storage profileName = none ∧
      getAuthState (ssoLoginLogout profileName inv st).state profileName = .notConnected) := by
  have hdel := deleteConnection_resets st profileName (.sso c) hc
  have htr : jsTruthy tid = true := by simp [jsTruthy, hne]
  refine ⟨?_, ?_, ?_⟩
  · rcases inv with e | u
    · simp [ssoLoginLogout, ssoLoginGetConnection, hc, htid, htr]
    · simp [ssoLoginLogout, ssoLoginGetConnection, hc, htid, htr]
  · intro e he
    subst he
    constructor <;> simp [ssoLoginLogout, ssoLoginGetConnection, hc, htid, htr]
  · intro he
    subst he
    have h := logout_ok_resets st profileName c hc
    exact ⟨h.2, by simp [getAuthState, h.2]⟩

/-- Witness for C3 (amended): concrete runs on the example connected store
with a failing and a succeeding invalidation. -/
theorem c3_logout_behavior_witness :
    (ssoLoginLogout "amazonq" (.error ⟨some .eCancelled, "x"⟩) stConnected).state =
      stConnected ∧
    Storage.get (ssoLoginLogout "amazonq" (.ok ()) stConnected).state.storage "amazonq" =
      none := by
  have h := c3_logout_behavior stConnected "amazonq"
    (exSso exIdcUrl (some "tok-1") .connected) (.error ⟨some .eCancelled, "x"⟩) "tok-1"
    (by decide) (by decide) (by decide)
  have h2 := c3_logout_behavior stConnected "amazonq"
    (exSso exIdcUrl (some "tok-1") .connected) (.ok ()) "tok-1"
    (by decide) (by decide) (by decide)
  exact ⟨(h.2.1 ⟨some .eCancelled, "x"⟩ rfl).2, (h2.2.2 rfl).1⟩

/-- Counterexample to C4: a successful `login` followed by `logout` whose
token-invalidation request the peer rejects ends with the connection still
stored, state `connected`, and every attribute (startUrl, region, scopes,
tokenId) intact — not `notConnected` with cleared attributes as the
unconditional claim states. -/
theorem c4_invalidation_failure_counterexample :
    (ssoLoginLogin "amazonq" exIdcUrl "us-east-1" ["scope:a"]
      (.ok ⟨"tok-1", "ct", "params"⟩) ⟨[], []⟩).result = .ok ⟨"tok-1", "ct", "params"⟩ ∧
    (ssoLoginLogout "amazonq" (.error ⟨none, "offline"⟩)
        (ssoLoginLogin "amazonq" exIdcUrl "us-east-1" ["scope:a"]
          (.ok ⟨"tok-1", "ct", "params"⟩) ⟨[], []⟩).state).result =
      .error (.transport ⟨none, "offline"⟩) ∧
    Storage.get (ssoLoginLogout "amazonq" (.error ⟨none, "offline"⟩)
        (ssoLoginLogin "amazonq" exIdcUrl "us-east-1" ["scope:a"]
          (.ok ⟨"tok-1", "ct", "params"⟩) ⟨[], []⟩).state).state.storage "amazonq" =
      some (.sso ⟨"amazonq", exIdcUrl, "us-east-1", ["scope:a"], some "tok-1", .connected⟩) ∧
    getAuthState (ssoLoginLogout "amazonq" (.error ⟨none, "offline"⟩)
        (ssoLoginLogin "amazonq" exIdcUrl "us-east-1" ["scope:a"]
          (.ok ⟨"tok-1", "ct", "params"⟩) ⟨[], []⟩).state).state "amazonq" = .connected := by
  exact ⟨rfl, rfl, by decide, by decide⟩

/-- C4 (amended): after a successful `login` followed by a `logout` whose
token-invalidation request the peer acknowledges, the stored connection entry
is gone — all connection attributes (startUrl, region, scopes, tokenId) are
cleared — and the connection state reads `notConnected`; when the
invalidation request fails instead (and the recorded token handle is
non-empty), `logout` rethrows the failure and the connection remains stored
unchanged, still `connected`. -/
theorem c4_login_then_logout (profileName startUrl region : String) (scopes : List String)
    (resp : FetchSuccess) (st : MgrState) :
    (ssoLoginLogin profileName startUrl region scopes (.ok resp) st).result = .ok resp ∧
    (ssoLoginLogout profileName (.ok ())
        (ssoLoginLogin profileName startUrl region scopes (.ok resp) st).state).result =
      .ok () ∧
    Storage.get (ssoLoginLogout profileName (.ok ())
        (ssoLoginLogin profileName startUrl region scopes (.ok resp) st).state).state.storage
      profileName = none ∧
    getAuthState (ssoLoginLogout profileName (.ok ())
        (ssoLoginLogin profileName startUrl region scopes (.ok resp) st).state).state
      profileName = .notConnected ∧
    (∀ e : TransportError, resp.tokenId ≠ "" →
      (ssoLoginLogout profileName (.error e)
          (ssoLoginLogin profileName startUrl region scopes (.ok resp) st).state).result =
        .error (.transport e) ∧
      (ssoLoginLogout profileName (.error e)
          (ssoLoginLogin profileName startUrl region scopes (.ok resp) st).state).state =
        (ssoLoginLogin profileName startUrl region scopes (.ok resp) st).state ∧
      Storage.get (ssoLoginLogout profileName (.error e)
          (ssoLoginLogin profileName startUrl region scopes (.ok resp) st).state).state.storage
        profileName =
        some (.sso ⟨profileName, startUrl, region, scopes, some resp.tokenId, .connected⟩)) := by
  have hlogin := login_ok_connects profileName startUrl region scopes resp st
  have hlogout := logout_ok_resets
    (ssoLoginLogin profileName startUrl region scopes (.ok resp) st).state profileName
    ⟨profileName, startUrl, region, scopes, some resp.tokenId, .connected⟩ hlogin.2
  refine ⟨hlogin.1, hlogout.1, hlogout.2, by simp [getAuthState, hlogout.2], ?_⟩
  intro e hne
  refine ⟨?_, ?_, ?_⟩ <;>
    simp [ssoLoginLogout, ssoLoginGetConnection, hlogin.2, jsTruthy, hne]

/-- Witness for C4: a concrete login/logout round trip from the empty store. -/
theorem c4_login_then_logout_witness :
    Storage.get (ssoLoginLogout "amazonq" (.ok ())
        (ssoLoginLogin "amazonq" exIdcUrl "us-east-1" ["scope:a"]
          (.ok ⟨"tok-1", "ct", "params"⟩) ⟨[], []⟩).state).state.storage "amazonq" = none ∧
    getAuthState (ssoLoginLogout "amazonq" (.ok ())
        (ssoLoginLogin "amazonq" exIdcUrl "us-east-1" ["scope:a"]
          (.ok ⟨"tok-1", "ct", "params"⟩) ⟨[], []⟩).state).state "amazonq" = .notConnected ∧
    (ssoLoginLogout "amazonq" (.error ⟨some .eCancelled, "x"⟩)
        (ssoLoginLogin "amazonq" exIdcUrl "us-east-1" ["scope:a"]
          (.ok ⟨"tok-1", "ct", "params"⟩) ⟨[], []⟩).state).state =
      (ssoLoginLogin "amazonq" exIdcUrl "us-east-1" ["scope:a"]
        (.ok ⟨"tok-1", "ct", "params"⟩) ⟨[], []⟩).state := by
  have h := c4_login_then_logout "amazonq" exIdcUrl "us-east-1" ["scope:a"]
    ⟨"tok-1", "ct", "params"⟩ ⟨[], []⟩
  exact ⟨h.2.2.1, h.2.2.2.1,
    (h.2.2.2.2 ⟨some .eCancelled, "x"⟩ (by decide)).2.1⟩

/-- Counterexample to C5: a stored SSO connection whose startUrl is the empty
string satisfies `isIdcConnection` (the definition only tests difference from
the Builder ID URL), although the claim characterizes IdC as requiring a
non-empty startUrl. -/
theorem c5_empty_url_counterexample :
    isIdcConnection ⟨[("amazonq", Connection.sso (exSso "" none .connected))], []⟩
      "amazonq" = true ∧
    (exSso "" none .connected).startUrl = "" := by
  decide

/-- C5 (amended): logging in from an empty store with an enterprise start URL
and a successful token fetch leaves the state `connected` with
`isIdcConnection` true and `isBuilderIdConnection` false; in general the two
predicates are mutually exclusive, `isBuilderIdConnection` holds exactly for a
stored SSO connection whose startUrl is the Builder ID URL, and
`isIdcConnection` exactly for a stored SSO connection with any other startUrl
(non-emptiness is not required). -/
theorem c5_scenario_and_predicates :
    (∀ resp : FetchSuccess,
      getAuthState
        (ssoLoginLogin "amazonq" exIdcUrl "us-east-1" ["scope:a"] (.ok resp) ⟨[], []⟩).state
        "amazonq" = .connected ∧
      isIdcConnection
        (ssoLoginLogin "amazonq" exIdcUrl "us-east-1" ["scope:a"] (.ok resp) ⟨[], []⟩).state
        "amazonq" = true ∧
      isBuilderIdConnection
        (ssoLoginLogin "amazonq" exIdcUrl "us-east-1" ["scope:a"] (.ok resp) ⟨[], []⟩).state
        "amazonq" = false) ∧
    (∀ (st : MgrState) (profileName : String),
      ¬(isBuilderIdConnection st profileName = true ∧
        isIdcConnection st profileName = true)) ∧
    (∀ (st : MgrState) (profileName : String),
      (isBuilderIdConnection st profileName = true ↔
        ∃ c : SsoConnection, Storage.get st.storage profileName = some (.sso c) ∧
          c.startUrl = builderIdStartUrl) ∧
      (isIdcConnection st profileName = true ↔
        ∃ c : SsoConnection, Storage.get st.storage profileName = some (.sso c) ∧
          c.startUrl ≠ builderIdStartUrl)) := by
  have hne : exIdcUrl ≠ builderIdStartUrl := by decide
  refine ⟨?_, ?_, ?_⟩
  · intro resp
    have h := login_ok_connects "amazonq" exIdcUrl "us-east-1" ["scope:a"] resp ⟨[], []⟩
    refine ⟨?_, ?_, ?_⟩ <;>
      simp [getAuthState, isIdcConnection, isBuilderIdConnection, h.2, hne,
        Connection.state]
  · intro st pn
    rcases hget : Storage.get st.storage pn with _ | conn
    · simp [isBuilderIdConnection, isIdcConnection, hget]
    · cases conn with
      | sso c =>
        simp [isBuilderIdConnection, isIdcConnection, hget]
      | iam i s => simp [isBuilderIdConnection, isIdcConnection, hget]
  · intro st pn
    rcases hget : Storage.get st.storage pn with _ | conn
    · simp [isBuilderIdConnection, isIdcConnection, hget]
    · cases conn with
      | sso c =>
        constructor
        · simp [isBuilderIdConnection, hget]
        · simp [isIdcConnection, hget]
      | iam i s => simp [isBuilderIdConnection, isIdcConnection, hget]

/-- Witness for C5: the scenario at a concrete fetch result, and mutual
exclusivity at the example connected store. -/
theorem c5_scenario_and_predicates_witness :
    (getAuthState
        (ssoLoginLogin "amazonq" exIdcUrl "us-east-1" ["scope:a"]
          (.ok ⟨"tok-1", "ct", "params"⟩) ⟨[], []⟩).state "amazonq" = .connected ∧
      isIdcConnection
        (ssoLoginLogin "amazonq" exIdcUrl "us-east-1" ["scope:a"]
          (.ok ⟨"tok-1", "ct", "params"⟩) ⟨[], []⟩).state "amazonq" = true ∧
      isBuilderIdConnection
        (ssoLoginLogin "amazonq" exIdcUrl "us-east-1" ["scope:a"]
          (.ok ⟨"tok-1", "ct", "params"⟩) ⟨[], []⟩).state "amazonq" = false) ∧
    ¬(isBuilderIdConnection stConnected "amazonq" = true ∧
      isIdcConnection stConnected "amazonq" = true) :=
  ⟨c5_scenario_and_predicates.1 ⟨"tok-1", "ct", "params"⟩,
    c5_scenario_and_predicates.2.1 stConnected "amazonq"⟩

/-- C6: a `ssoTokenChanged` push notification whose token handle differs from
the session's currently recorded handle (`connection?.tokenId`) is a no-op:
the handler returns with the store (state, attributes, token handle)
unchanged, fires no event, and issues no request. -/
theorem c6_stale_notification_ignored (params : SsoTokenChangedParams)
    (session : Option SessionType) (profileName : String) (fetch : FetchOutcome)
    (decrypt : String → String) (st : MgrState)
    (hmismatch : some params.ssoTokenId ≠ connectionTokenId st profileName) :
    ssoTokenChangedHandler params session profileName fetch decrypt st =
      ⟨.ok (), st, [], []⟩ := by
  simp [ssoTokenChangedHandler, hmismatch]

/-- Witness for C6: a `Refreshed` notification for the foreign handle
"tok-other" against the example store (which records "tok-1") is ignored. -/
theorem c6_stale_notification_ignored_witness :
    ssoTokenChangedHandler ⟨"tok-other", .refreshed⟩ (some .sso) "amazonq"
      (.ok ⟨"tok-9", "ct", "params"⟩) (fun s => s) stConnected =
      ⟨.ok (), stConnected, [], []⟩ :=
  c6_stale_notification_ignored ⟨"tok-other", .refreshed⟩ (some .sso) "amazonq"
    (.ok ⟨"tok-9", "ct", "params"⟩) (fun s => s) stConnected (by decide)

/-- A store holding a `notConnected` SSO connection (the situation left
behind by a `login` whose token fetch failed with an unrecognized error: the
connection was stored before the fetch and no state update ran). -/
def stNotConnectedStored : MgrState :=
  ⟨[("amazonq", .sso (exSso exIdcUrl none .notConnected))], []⟩

/-- Counterexample to C7: with a connection stored in state `notConnected`
(reachable via a failed login) and an SSO session object, `getToken()` does
not raise a "no session" error — the token fetch proceeds and, when the peer
returns a valid token, credentials are returned. -/
theorem c7_counterexample :
    getAuthState stNotConnectedStored "amazonq" = .notConnected ∧
    (authUtilGetToken (some .sso) "amazonq" (.ok ⟨"tok-9", "ct", "params"⟩)
      (fun _ => "tok") stNotConnectedStored).result = .ok "tok" := by
  exact ⟨by decide, rfl⟩

/-- C7 (amended): `getToken()` raises the recognizable "No valid session."
error whenever no SSO session object exists, and the recognizable
"SsoLogin: No connection found." error when the session exists but no
connection is stored (the standing `notConnected` situation); in neither case
are credentials returned. A connection stored while `notConnected` (after a
failed login) instead proceeds to a token fetch. -/
theorem c7_no_session_errors (session : Option SessionType) (profileName : String)
    (fetch : FetchOutcome) (decrypt : String → String) (st : MgrState) :
    (session ≠ some .sso →
      (authUtilGetToken session profileName fetch decrypt st).result =
        .error .noValidSession) ∧
    (Storage.get st.storage profileName = none → session = some .sso →
      (authUtilGetToken session profileName fetch decrypt st).result =
        .error .noConnectionFound) := by
  constructor
  · intro h
    simp [authUtilGetToken, h]
  · intro hget hs
    simp [authUtilGetToken, hs, ssoLoginGetToken, ssoLoginGetSsoToken,
      ssoLoginGetConnection, hget]

/-- Witness for C7 (amended): with an empty store, an SSO session errors with
"SsoLogin: No connection found." and a missing session errors with
"No valid session.". -/
theorem c7_no_session_errors_witness :
    (authUtilGetToken (some .sso) "amazonq" (.ok ⟨"tok-9", "ct", "params"⟩)
      (fun s => s) ⟨[], []⟩).result = .error .noConnectionFound ∧
    (authUtilGetToken none "amazonq" (.ok ⟨"tok-9", "ct", "params"⟩)
      (fun s => s) ⟨[], []⟩).result = .error .noValidSession := by
  have h := c7_no_session_errors (some .sso) "amazonq" (.ok ⟨"tok-9", "ct", "params"⟩)
    (fun s => s) ⟨[], []⟩
  have h2 := c7_no_session_errors none "amazonq" (.ok ⟨"tok-9", "ct", "params"⟩)
    (fun s => s) ⟨[], []⟩
  exact ⟨h.2 rfl rfl, h2.1 (by decide)⟩

/-- C8: a state-change event carrying the terminal state `expired` makes the
registry's handler delete the pushed bearer token from the transport peer
first, before the feature-visibility flags are republished; events carrying
the other terminal states (`connected`, `notConnected`) issue no bearer-token
delete. -/
theorem c8_expired_deletes_bearer (isIdc : Bool) (tokenFetchEffects : List Effect)
    (tokenParams : Option String) :
    stateChangeHandler (.auth .expired) isIdc tokenFetchEffects tokenParams =
      Effect.deleteBearerToken ::
        (setVscodeContextProps .expired ++
          [.tryExecuteCommand "aws.amazonq.refreshStatusBar",
           .tryExecuteCommand "aws.amazonq.updateReferenceLog"]) ∧
    Effect.deleteBearerToken ∉
      stateChangeHandler (.auth .connected) isIdc tokenFetchEffects tokenParams ∧
    Effect.deleteBearerToken ∉
      stateChangeHandler (.auth .notConnected) isIdc tokenFetchEffects tokenParams := by
  refine ⟨?_, ?_, ?_⟩ <;> cases isIdc <;>
    simp [stateChangeHandler, refreshState, setVscodeContextProps]

/-- Witness for C8: the handler's concrete effect lists at both IdC values. -/
theorem c8_expired_deletes_bearer_witness :
    stateChangeHandler (.auth .expired) true [] none =
      Effect.deleteBearerToken ::
        (setVscodeContextProps .expired ++
          [.tryExecuteCommand "aws.amazonq.refreshStatusBar",
           .tryExecuteCommand "aws.amazonq.updateReferenceLog"]) ∧
    Effect.deleteBearerToken ∉ stateChangeHandler (.auth .connected) true [] none ∧
    Effect.deleteBearerToken ∉ stateChangeHandler (.auth .notConnected) false [] none :=
  ⟨(c8_expired_deletes_bearer true [] none).1,
    (c8_expired_deletes_bearer true [] none).2.1,
    (c8_expired_deletes_bearer false [] none).2.2⟩

/-- C9: the legacy-profile import is idempotent — when a run has cleared the
legacy store entry, running the procedure again re-registers no profile,
moves no files, and raises no error: it returns immediately with no requests
issued and the store entry still cleared. -/
theorem c9_migration_idempotent (profiles : Option (List StoredProfile))
    (profileName clientName : String) (regFile tokFile : String)
    (hcleared : (migrateExistingConnection profiles profileName clientName
        regFile tokFile).1 = none) :
    migrateExistingConnection
      (migrateExistingConnection profiles profileName clientName regFile tokFile).1
      profileName clientName regFile tokFile = (none, []) := by
  rw [hcleared]
  rfl

/-- Witness for C9: a first run over a legacy store holding one matching,
previously valid SSO profile clears the entry; the second run is a no-op. -/
theorem c9_migration_idempotent_witness :
    migrateExistingConnection
      (migrateExistingConnection
        (some [⟨.sso, exIdcUrl, "us-east-1", some amazonQScopes, "valid"⟩])
        "amazonq" "AWS IDE Extensions for VSCode" "reg.json" "tok.json").1
      "amazonq" "AWS IDE Extensions for VSCode" "reg.json" "tok.json" = (none, []) :=
  c9_migration_idempotent
    (some [⟨.sso, exIdcUrl, "us-east-1", some amazonQScopes, "valid"⟩])
    "amazonq" "AWS IDE Extensions for VSCode" "reg.json" "tok.json" (by decide)

end AwsAuth
